import Mathlib

/-!
Shallow embedding of the transcript service (`src/main.py`).

The file models the two core components of the repository:

* the reference resolver `extract_video_id` (main.py lines 33-54), together
  with a model of the fragment of CPython's `urllib.parse` that it uses
  (`urlparse` hostname/path/query extraction and `parse_qs`), and
* the multi-strategy transcript resolution engine inside the
  `get_transcript` endpoint (main.py lines 56-227), parameterised over an
  abstract Transcript Provider state.

The provider (`youtube_transcript_api`) is an external collaborator; it is
modelled as an explicit state: a listing that either fails with an error
message or yields a list of transcripts, each carrying a language code, an
auto-generated flag, and a fixed fetch outcome.
-/

set_option autoImplicit false

deriving instance DecidableEq for Except

namespace TranscriptService

/-- A timed transcript segment, `{text, start, duration}` as produced by the
provider.  The float fields are carried as rationals: the code never
computes with them, it only passes them through. -/
structure Segment where
  text : String
  start : Rat
  duration : Rat
deriving DecidableEq, Repr

/-- One caption track of the provider's listing: its language code, whether
it is auto-generated (`is_generated` in the library), and the fixed outcome
of `fetch()` for the given provider state (segments, or an error text). -/
structure Transcript where
  language_code : String
  is_generated : Bool
  fetchResult : Except String (List Segment)
deriving DecidableEq, Repr

/-- Abstract provider state: `YouTubeTranscriptApi.list_transcripts` either
raises (error text) or returns the fixed list of transcripts.  The state is
fixed for a whole run, so repeated listing calls agree. -/
structure Provider where
  listing : Except String (List Transcript)
deriving DecidableEq, Repr

/-- Modelled from the spec §6: the provider's `find_transcript([lang])`
selects the transcript whose language code exactly equals `lang`, failing
with a "no transcripts were found" message otherwise. -/
def find_transcript (ts : List Transcript) (lang : String) : Except String Transcript :=
  match ts.find? (fun t => t.language_code = lang) with
  | some t => .ok t
  | none =>
      .error ("No transcripts were found for any of the requested language codes: " ++ lang)

/-- One exact-language attempt: list transcripts, find the transcript for
`lang`, fetch it.  This is what Method 1 (main.py lines 77-80) does for the
requested language and what Method 3 (lines 124-127) does per sweep
language. -/
def tryLang (p : Provider) (lang : String) : Except String (List Segment) :=
  match p.listing with
  | .error e => .error e
  | .ok ts =>
      match find_transcript ts lang with
      | .error e => .error e
      | .ok t => t.fetchResult

/-- Method 2's selection rule (main.py lines 96-102): the first
manually-created transcript if any exist, else the first transcript in
listing order; `none` when the listing is empty. -/
def chooseBest (ts : List Transcript) : Option Transcript :=
  match ts.filter (fun t => !t.is_generated) with
  | [] => ts.head?
  | m :: _ => some m

/-- Method 2 (main.py lines 90-111): list transcripts, pick the best
available transcript and fetch it; an empty listing raises
"No transcripts available". -/
def method2 (p : Provider) : Except String (List Segment × String) :=
  match p.listing with
  | .error e => .error e
  | .ok ts =>
      match chooseBest ts with
      | none => .error "No transcripts available"
      | some t =>
          match t.fetchResult with
          | .error e => .error e
          | .ok segs => .ok (segs, t.language_code)

/-- The fixed Method 3 language list (main.py line 118). -/
def common_languages : List String :=
  ["en", "es", "fr", "de", "it", "pt", "ru", "ja", "ko", "zh", "hi", "ar"]

/-- Method 3's loop (main.py lines 119-135): iterate the remaining common
languages, skipping the requested one; append a bare "(failed)" entry per
unsuccessful language and stop at the first successful fetch, appending its
"(success)" entry.  Returns the log entries it appended and the successful
`(segments, language)` if any. -/
def sweep (p : Provider) (reqLang : String) :
    List String → List String × Option (List Segment × String)
  | [] => ([], none)
  | l :: rest =>
      if l = reqLang then sweep p reqLang rest
      else
        match tryLang p l with
        | .ok segs => ([l ++ " (success)"], some (segs, l))
        | .error _ =>
            let r := sweep p reqLang rest
            ((l ++ " (failed)") :: r.1, r.2)

/-- Outcome of the resolution block (main.py lines 74-138): either control
reaches line 140 with fetched transcript data (`resolved`, possibly with an
empty segment list), or the line-138 `raise Exception("All methods
failed...")` fires (`exhausted`).  Both carry the `attempted_methods`
log. -/
inductive ResolveResult where
  | resolved (segments : List Segment) (language : String) (log : List String)
  | exhausted (log : List String)
deriving DecidableEq, Repr

/-- The Method 3 stage together with the line-137 falsy check
`if not transcript_data`: a sweep success whose fetch returned an *empty*
list still counts as falsy, so it raises "All methods failed" (Python's
`not []`). -/
def strategy3 (p : Provider) (reqLang : String) (log : List String) : ResolveResult :=
  let r := sweep p reqLang common_languages
  match r.2 with
  | some (segs, l) =>
      if segs = [] then .exhausted (log ++ r.1) else .resolved segs l (log ++ r.1)
  | none => .exhausted (log ++ r.1)

/-- The three-strategy resolution engine (main.py lines 74-138), for a fixed
provider state and requested language. -/
def resolve (p : Provider) (reqLang : String) : ResolveResult :=
  match tryLang p reqLang with
  | .ok segs => .resolved segs reqLang [reqLang ++ " (success)"]
  | .error e1 =>
      let log1 := [reqLang ++ " (failed: " ++ e1 ++ ")"]
      match method2 p with
      | .ok (segs, lc) => .resolved segs lc (log1 ++ [lc ++ " (success)"])
      | .error e2 =>
          strategy3 p reqLang (log1 ++ ["auto-detect (failed: " ++ e2 ++ ")"])

/-- Python's substring containment `pat in s`. -/
def containsSubstr (s pat : String) : Bool :=
  s.data.tails.any (fun t => pat.data.isPrefixOf t)

/-- The HTTP response rendered by the endpoint: a 200 `TranscriptResponse`,
an error response (the `HTTPException` detail dicts of main.py, with their
optional `attemptedMethods` and `errorType` fields), or the 400
"Invalid YouTube URL" response of line 68. -/
inductive Response where
  | ok (transcript : String) (raw : List Segment) (segmentCount : Nat)
      (videoId language requestedLanguage : String) (attemptedMethods : List String)
  | err (status : Nat) (error details videoId : String)
      (attemptedMethods : Option (List String)) (errorType : Option String)
  | badRequest (detail : String)
deriving DecidableEq, Repr

/-- HTTP status of a response (200 for the success shape, 400 for the
invalid-reference rejection). -/
def Response.status : Response → Nat
  | .ok _ _ _ _ _ _ _ => 200
  | .err s _ _ _ _ _ => s
  | .badRequest _ => 400

/-- The `attemptedMethods` field of the response body, when present. -/
def Response.attempted : Response → Option (List String)
  | .ok _ _ _ _ _ _ log => some log
  | .err _ _ _ _ log _ => log
  | .badRequest _ => none

/-- The `details` field of an error body (empty for other shapes). -/
def Response.details : Response → String
  | .err _ _ d _ _ _ => d
  | _ => ""

/-- Rendering of a terminal `ResolveResult` (main.py lines 140-227): the
empty-segments check of line 150 raises the "no segments" 404; a nonempty
result returns the 200 body; the exhaustion exception of line 138 is caught
by the outer handler (lines 192-227) and classified by substring sniffing
on its message. -/
def renderResult (videoId reqLang : String) (r : ResolveResult) : Response :=
  match r with
  | .resolved segs lang log =>
      if segs = [] then
        .err 404 "No transcript found for this video" "No transcript segments available"
          videoId (some log) none
      else
        .ok (String.intercalate " " (segs.map (fun s => s.text))) segs segs.length
          videoId lang reqLang log
  | .exhausted log =>
      let msg := "All methods failed. Attempted: " ++ String.intercalate ", " log
      if containsSubstr msg "Could not retrieve a transcript" then
        .err 404 "No transcript available for this video"
          "This video does not have captions/subtitles available" videoId none none
      else if containsSubstr msg "TranscriptsDisabled" then
        .err 404 "Transcripts are disabled for this video"
          "The video owner has disabled captions/subtitles" videoId none none
      else
        .err 500 "Failed to fetch transcript" msg videoId none (some "Exception")

/-! ### Model of the `urllib.parse` fragment used by `extract_video_id`

`extract_video_id` relies on CPython's `urlparse` (`hostname`, `path`,
`query`) and `parse_qs`.  These are external standard-library collaborators;
they are modelled here on `List Char`, following CPython's `urlsplit`,
`urlparse`, `_hostinfo` and `parse_qsl`, restricted to ASCII case mapping
and single-byte percent escapes (the only parts the service exercises). -/

/-- Split a list at the first occurrence of `t`: `some (before, after)`
with the occurrence removed, or `none` when `t` does not occur.  This is
the common core of Python's `find`/`split(c, 1)`/`partition(c)`. -/
def breakAt (t : Char) : List Char → Option (List Char × List Char)
  | [] => none
  | c :: rest =>
      if c = t then some ([], rest)
      else (breakAt t rest).map (fun r => (c :: r.1, r.2))

/-- Python's `str.split(sep)` for a one-character separator (always returns
at least one group; splitting the empty string yields `[[]]`). -/
def pySplit (sep : Char) : List Char → List (List Char)
  | [] => [[]]
  | c :: rest =>
      if c = sep then [] :: pySplit sep rest
      else
        match pySplit sep rest with
        | [] => [[c]]
        | g :: gs => (c :: g) :: gs

/-- The character class of the identifier regex `[a-zA-Z0-9_-]`
(main.py line 48). -/
def isIdChar (c : Char) : Bool :=
  c.isAlpha || c.isDigit || c = '_' || c = '-'

/-- `re.match(r'^[a-zA-Z0-9_-]{11}$', url)` as a Boolean: eleven identifier
characters, optionally followed by a single trailing newline (re's `$`
also matches just before a final newline). -/
def matchesVideoId (s : String) : Bool :=
  (s.data.length = 11 && s.data.all isIdChar) ||
    (s.data.length = 12 && (s.data.take 11).all isIdChar && s.data.getLast? = some '\n')

/-- WHATWG C0 control or space, stripped from the left of a URL by
`urlsplit`. -/
def isC0OrSpace (c : Char) : Bool := c.toNat ≤ 0x20

/-- Tab, CR and LF are removed from anywhere in the URL by `urlsplit`. -/
def isUnsafeUrlChar (c : Char) : Bool := c = '\t' || c = '\r' || c = '\n'

/-- `urlsplit`'s input normalisation: lstrip C0 controls and spaces, then
remove every tab/CR/LF. -/
def cleanUrl (l : List Char) : List Char :=
  (l.dropWhile isC0OrSpace).filter (fun c => !isUnsafeUrlChar c)

/-- Characters allowed in a URL scheme. -/
def isSchemeChar (c : Char) : Bool :=
  c.isAlphanum || c = '+' || c = '-' || c = '.'

/-- `urlsplit`'s scheme recognition: a leading `<scheme>:` is split off when
the colon is not first, the first character is a letter and every character
before the colon is a scheme character; the scheme is lowercased. -/
def splitScheme (l : List Char) : List Char × List Char :=
  match breakAt ':' l with
  | none => ([], l)
  | some (before, after) =>
      if before ≠ [] ∧ (before.headI).isAlpha = true ∧ before.all isSchemeChar then
        (before.map Char.toLower, after)
      else ([], l)

/-- Is `c` one of the netloc delimiters `/?#`. -/
def isNetlocDelim (c : Char) : Bool := c = '/' || c = '?' || c = '#'

/-- `_splitnetloc`: after a leading `//`, the netloc runs to the first of
`/?#`. -/
def splitNetloc (l : List Char) : List Char × List Char :=
  (l.takeWhile (fun c => !isNetlocDelim c), l.dropWhile (fun c => !isNetlocDelim c))

/-- `urlsplit` raises `ValueError` on a netloc with mismatched square
brackets. -/
def bracketMismatch (netloc : List Char) : Bool :=
  ('[' ∈ netloc && !(']' ∈ netloc)) || (']' ∈ netloc && !('[' ∈ netloc))

/-- The part of the netloc after the last `@` (`rpartition('@')[2]`). -/
def afterLastAt (netloc : List Char) : List Char :=
  match breakAt '@' netloc.reverse with
  | none => netloc
  | some (rb, _) => rb.reverse

/-- `_hostinfo`: from the netloc, drop userinfo, take the bracketed host if
brackets are present, else everything before the first colon; lowercase;
an empty host is `None`. -/
def hostnameOf (netloc : List Char) : Option (List Char) :=
  let hostinfo := afterLastAt netloc
  let host :=
    match breakAt '[' hostinfo with
    | some (_, rest) =>
        match breakAt ']' rest with
        | some (h, _) => h
        | none => rest
    | none =>
        match breakAt ':' hostinfo with
        | some (h, _) => h
        | none => hostinfo
  if host = [] then none else some (host.map Char.toLower)

/-- Split `l` around its last `/`: `some (before, after)` with
`l = before ++ '/' :: after` and no `/` in `after`. -/
def splitAtLastSlash (l : List Char) : Option (List Char × List Char) :=
  match breakAt '/' l.reverse with
  | none => none
  | some (rb, ra) => some (ra.reverse, rb.reverse)

/-- `_splitparams`: drop `;params` from the last path segment. -/
def splitParams (path : List Char) : List Char :=
  match splitAtLastSlash path with
  | some (a, b) =>
      match breakAt ';' b with
      | some (b1, _) => a ++ '/' :: b1
      | none => path
  | none =>
      match breakAt ';' path with
      | some (p1, _) => p1
      | none => path

/-- The schemes for which `urlparse` interprets `;params`
(`uses_params`). -/
def usesParams : List (List Char) :=
  ["".data, "ftp".data, "hdl".data, "prospero".data, "http".data, "imap".data,
   "https".data, "shttp".data, "rtsp".data, "rtsps".data, "rtspu".data, "sip".data,
   "sips".data, "snews".data, "svn".data, "svn+ssh".data, "sftp".data, "nfs".data,
   "git".data, "git+ssh".data]

/-- The components of `urlparse` that `extract_video_id` reads. -/
structure UrlParts where
  scheme : List Char
  netloc : List Char
  path : List Char
  query : List Char
deriving DecidableEq, Repr

/-- CPython `urlparse` (via `urlsplit`), restricted to the scheme, netloc,
path and query components; `none` models the `ValueError` raised on
mismatched netloc brackets (caught by `extract_video_id`). -/
def pyUrlparse (url : List Char) : Option UrlParts :=
  let u0 := cleanUrl url
  let s := splitScheme u0
  let scheme := s.1
  let u1 := s.2
  let hasNetloc := u1.take 2 = ['/', '/']
  let n := if hasNetloc then splitNetloc (u1.drop 2) else ([], u1)
  let netloc := n.1
  if bracketMismatch netloc then none
  else
    let u2 :=
      match breakAt '#' n.2 with
      | some (before, _) => before
      | none => n.2
    let qsplit :=
      match breakAt '?' u2 with
      | some (before, after) => (before, after)
      | none => (u2, [])
    let path :=
      if scheme ∈ usesParams ∧ ';' ∈ qsplit.1 then splitParams qsplit.1 else qsplit.1
    some ⟨scheme, netloc, path, qsplit.2⟩

/-- Value of a hexadecimal digit. -/
def hexVal (c : Char) : Option Nat :=
  if '0' ≤ c ∧ c ≤ '9' then some (c.toNat - 48)
  else if 'a' ≤ c ∧ c ≤ 'f' then some (c.toNat - 87)
  else if 'A' ≤ c ∧ c ≤ 'F' then some (c.toNat - 55)
  else none

/-- Percent-decoding of `unquote`, restricted to single-byte escapes: a
`%` followed by two hex digits becomes that character, anything else is
kept verbatim. -/
def pctDecode : List Char → List Char
  | [] => []
  | '%' :: a :: b :: r =>
      match hexVal a, hexVal b with
      | some x, some y => Char.ofNat (16 * x + y) :: pctDecode r
      | _, _ => '%' :: pctDecode (a :: b :: r)
  | c :: rest => c :: pctDecode rest

/-- `parse_qsl`'s per-field value decoding: `+` to space, then
percent-decode. -/
def unq (l : List Char) : List Char :=
  pctDecode (l.map (fun c => if c = '+' then ' ' else c))

/-- CPython `parse_qsl` with default options: split on `&`, skip empty
fields, skip fields without `=` and fields with an empty value
(`keep_blank_values=False`), and unquote names and values. -/
def parse_qsl (q : List Char) : List (List Char × List Char) :=
  (pySplit '&' q).filterMap (fun nv =>
    if nv = [] then none
    else
      match breakAt '=' nv with
      | none => none
      | some (n, v) => if v = [] then none else some (unq n, unq v))

/-- `parse_qs(query).get('v', [None])[0]`: the first value of the `v`
parameter, if any. -/
def firstV (q : List Char) : Option (List Char) :=
  (parse_qsl q).find? (fun kv => kv.1 = "v".data) |>.map (fun kv => kv.2)

/-- The reference resolver `extract_video_id` (main.py lines 33-54).

Faithful quirks: when `urlparse` leaves the hostname `None` (no netloc),
the membership test `'youtube.com' in parsed.hostname` raises `TypeError`,
which the blanket `except` turns into `None` — so the bare-identifier
branch of line 48 is unreachable for inputs without a netloc; the
`youtu.be` branch returns the path minus its first character with no
validation; the `youtube.com` branch returns the first `v` parameter or
`None` without falling through. -/
def extract_video_id (url : String) : Option String :=
  match pyUrlparse url.data with
  | none => none
  | some parts =>
      let host := hostnameOf parts.netloc
      if host = some ("youtu.be".data) then some (String.mk (parts.path.drop 1))
      else
        match host with
        | none => none
        | some h =>
            if containsSubstr (String.mk h) "youtube.com" then
              match firstV parts.query with
              | some v => some (String.mk v)
              | none => none
            else if matchesVideoId url then some url
            else none

/-- The `POST /get_transcript` endpoint (main.py lines 56-227): resolve the
reference (the falsy check of line 67 also rejects an empty extracted
identifier), run the resolution engine against the provider state, render
the result. -/
def get_transcript (url lang : String) (p : Provider) : Response :=
  match extract_video_id url with
  | none => .badRequest "Invalid YouTube URL"
  | some vid =>
      if vid = "" then .badRequest "Invalid YouTube URL"
      else renderResult vid lang (resolve p lang)


/-! ### Auxiliary definitions used by the verification -/


/-- The spec's wording of Strategy 2's selection rule ("select the first
manually-created transcript if any exist, else the first transcript in
listing order"), stated independently of the code's filter-then-index
formulation so the two can be compared. -/
def specSelectBest (ts : List Transcript) : Option Transcript :=
  match ts.find? (fun t => !t.is_generated) with
  | some t => some t
  | none => ts.head?

/-- Whether a resolution run ended on the all-methods-failed path. -/
def ResolveResult.isExhausted : ResolveResult → Bool
  | .exhausted _ => true
  | .resolved _ _ _ => false

/-- The attempt log of a terminal resolution result. -/
def ResolveResult.logOf : ResolveResult → List String
  | .exhausted log => log
  | .resolved _ _ log => log

/-- Provider with two auto-generated tracks: an `xx` track whose fetch
fails and an `es` track whose fetch succeeds with zero segments. -/
def pEmptyFetch : Provider := ⟨.ok [⟨"xx", true, .error "boom"⟩, ⟨"es", true, .ok []⟩]⟩

/-- Provider whose listing fails with the library's
"Could not retrieve a transcript" marker text. -/
def pMarkerFail : Provider := ⟨.error "Could not retrieve a transcript for the video"⟩

/-- Provider whose listing succeeds but is empty: no transcripts at all. -/
def pNoListing : Provider := ⟨.ok []⟩

/-- Provider with a single manual `en` track whose fetch succeeds with zero
segments. -/
def pEmptyFirst : Provider := ⟨.ok [⟨"en", false, .ok []⟩]⟩

/-- Provider with an auto-generated `de` track and a manually-created `fr`
track, both fetchable. -/
def pTwoTracks : Provider :=
  ⟨.ok [⟨"de", true, .ok [⟨"hallo", 0, 1⟩]⟩, ⟨"fr", false, .ok [⟨"bonjour", 0, 1⟩]⟩]⟩


/-! ### Helper lemmas -/


lemma chooseBest_eq_spec (ts : List Transcript) : chooseBest ts = specSelectBest ts := by
  unfold chooseBest specSelectBest
  rw [← List.filter_head? (fun t => !t.is_generated) ts]
  cases ts.filter (fun t => !t.is_generated) <;> simp

lemma sweep_none_shape (p : Provider) (req : String) :
    ∀ langs : List String, (sweep p req langs).2 = none →
      (sweep p req langs).1 =
        (langs.filter (fun l => l ≠ req)).map (fun l => l ++ " (failed)") := by
  intro langs
  induction langs with
  | nil => intro _; rfl
  | cons l rest ih =>
      intro h
      by_cases hl : l = req
      · simp only [sweep, if_pos hl] at h ⊢
        simp [List.filter_cons, hl, ih h]
      · cases htl : tryLang p l with
        | ok segs => simp only [sweep, if_neg hl, htl] at h; simp at h
        | error e =>
            simp only [sweep, if_neg hl, htl] at h ⊢
            simp [List.filter_cons, hl, ih h]

lemma sweep_some_shape (p : Provider) (req : String) :
    ∀ (langs : List String) (segs : List Segment) (l : String),
      (sweep p req langs).2 = some (segs, l) →
      tryLang p l = .ok segs ∧
        ∃ s1 s2, langs.filter (fun x => x ≠ req) = s1 ++ l :: s2 ∧
          (sweep p req langs).1 = s1.map (fun x => x ++ " (failed)") ++ [l ++ " (success)"] := by
  intro langs
  induction langs with
  | nil => intro segs l h; simp [sweep] at h
  | cons a rest ih =>
      intro segs l h
      by_cases ha : a = req
      · simp only [sweep, if_pos ha] at h ⊢
        obtain ⟨h1, s1, s2, h2, h3⟩ := ih segs l h
        refine ⟨h1, s1, s2, ?_, h3⟩
        subst ha
        simpa [List.filter_cons] using h2
      · cases htl : tryLang p a with
        | ok s0 =>
            simp only [sweep, if_neg ha, htl] at h ⊢
            obtain ⟨hs, hl⟩ : s0 = segs ∧ a = l := by
              have := h
              simp at this
              exact this
            subst hs; subst hl
            refine ⟨htl, [], rest.filter (fun x => x ≠ req), ?_, by simp⟩
            simp [List.filter_cons, ha]
        | error e =>
            simp only [sweep, if_neg ha, htl] at h ⊢
            obtain ⟨h1, s1, s2, h2, h3⟩ := ih segs l h
            refine ⟨h1, a :: s1, s2, ?_, ?_⟩
            · rw [List.filter_cons, if_pos (by simp [ha])]
              exact congrArg _ h2
            · simp [h3]

lemma resolve_exhausted_shape (p : Provider) (lang : String) (log : List String)
    (h : resolve p lang = .exhausted log) :
    ∃ e1 e2 rest,
      log = (lang ++ " (failed: " ++ e1 ++ ")") ::
        ("auto-detect (failed: " ++ e2 ++ ")") :: rest ∧
      (rest = (common_languages.filter (fun l => l ≠ lang)).map (fun l => l ++ " (failed)") ∨
       ∃ s1 l' s2, common_languages.filter (fun x => x ≠ lang) = s1 ++ l' :: s2 ∧
         rest = s1.map (fun x => x ++ " (failed)") ++ [l' ++ " (success)"]) := by
  unfold resolve at h
  cases h1 : tryLang p lang with
  | ok segs => rw [h1] at h; simp at h
  | error e1 =>
      rw [h1] at h
      cases h2 : method2 p with
      | ok r =>
          obtain ⟨segs, lc⟩ := r
          rw [h2] at h; simp at h
      | error e2 =>
          rw [h2] at h
          simp only at h
          unfold strategy3 at h
          dsimp only at h
          cases h3 : (sweep p lang common_languages).2 with
          | none =>
              rw [h3] at h
              dsimp only at h
              simp only [ResolveResult.exhausted.injEq] at h
              refine ⟨e1, e2, (sweep p lang common_languages).1, ?_, Or.inl ?_⟩
              · simp [← h]
              · exact sweep_none_shape p lang common_languages h3
          | some r =>
              obtain ⟨segs, l'⟩ := r
              rw [h3] at h
              dsimp only at h
              by_cases hs : segs = []
              · rw [if_pos hs] at h
                simp only [ResolveResult.exhausted.injEq] at h
                obtain ⟨_, s1, s2, hsplit, hlog⟩ := sweep_some_shape p lang common_languages segs l' h3
                refine ⟨e1, e2, (sweep p lang common_languages).1, by simp [← h], Or.inr ?_⟩
                exact ⟨s1, l', s2, hsplit, hlog⟩
              · rw [if_neg hs] at h
                simp at h

lemma resolve_resolved_last (p : Provider) (lang : String) (segs : List Segment)
    (l : String) (log : List String) (h : resolve p lang = .resolved segs l log) :
    log.getLast? = some (l ++ " (success)") := by
  unfold resolve at h
  cases h1 : tryLang p lang with
  | ok s0 =>
      rw [h1] at h
      simp only [ResolveResult.resolved.injEq] at h
      obtain ⟨_, hl, hlog⟩ := h
      subst hl; subst hlog; rfl
  | error e1 =>
      rw [h1] at h
      cases h2 : method2 p with
      | ok r =>
          obtain ⟨s0, lc⟩ := r
          rw [h2] at h
          simp only [ResolveResult.resolved.injEq] at h
          obtain ⟨_, hl, hlog⟩ := h
          subst hl; subst hlog
          simp
      | error e2 =>
          rw [h2] at h
          simp only at h
          unfold strategy3 at h
          dsimp only at h
          cases h3 : (sweep p lang common_languages).2 with
          | none => rw [h3] at h; dsimp only at h; simp at h
          | some r =>
              obtain ⟨s0, l0⟩ := r
              rw [h3] at h
              dsimp only at h
              by_cases hs : s0 = []
              · rw [if_pos hs] at h; simp at h
              · rw [if_neg hs] at h
                simp only [ResolveResult.resolved.injEq] at h
                obtain ⟨_, hl, hlog⟩ := h
                subst hl; subst hlog
                obtain ⟨_, s1, s2, _, hlog1⟩ := sweep_some_shape p lang common_languages _ _ h3
                rw [hlog1]
                rw [← List.append_assoc]
                exact List.getLast?_concat _

lemma tryLang_allFail (p : Provider)
    (h : (∃ e, p.listing = .error e) ∨ p.listing = .ok []) :
    ∀ l, ∃ e', tryLang p l = .error e' := by
  intro l
  rcases h with ⟨e, he⟩ | he
  · exact ⟨e, by simp [tryLang, he]⟩
  · exact ⟨"No transcripts were found for any of the requested language codes: " ++ l,
      by simp [tryLang, he, find_transcript]⟩

lemma sweep_allFail_none (p : Provider) (req : String)
    (h : ∀ l, ∃ e', tryLang p l = .error e') :
    ∀ langs, (sweep p req langs).2 = none := by
  intro langs
  induction langs with
  | nil => rfl
  | cons a rest ih =>
      by_cases ha : a = req
      · simp only [sweep, if_pos ha]; exact ih
      · obtain ⟨e', he'⟩ := h a
        simp only [sweep, if_neg ha, he']
        exact ih

lemma resolve_noTranscripts (p : Provider)
    (h : (∃ e, p.listing = .error e) ∨ p.listing = .ok []) :
    ∃ log, resolve p "en" = .exhausted log ∧ log.length = 13 := by
  obtain ⟨e1, he1⟩ := tryLang_allFail p h "en"
  have hm2 : ∃ e2, method2 p = .error e2 := by
    rcases h with ⟨e, he⟩ | he
    · exact ⟨e, by simp [method2, he]⟩
    · exact ⟨"No transcripts available", by simp [method2, he, chooseBest]⟩
  obtain ⟨e2, he2⟩ := hm2
  have hsw : (sweep p "en" common_languages).2 = none :=
    sweep_allFail_none p "en" (tryLang_allFail p h) common_languages
  have hlog : (sweep p "en" common_languages).1 =
      (common_languages.filter (fun l => l ≠ "en")).map (fun l => l ++ " (failed)") :=
    sweep_none_shape p "en" common_languages hsw
  have hres : resolve p "en" = .exhausted
      (["en" ++ " (failed: " ++ e1 ++ ")"] ++ ["auto-detect (failed: " ++ e2 ++ ")"] ++
        (sweep p "en" common_languages).1) := by
    unfold resolve
    rw [he1]
    dsimp only
    rw [he2]
    dsimp only
    unfold strategy3
    dsimp only
    rw [hsw]
  refine ⟨_, hres, ?_⟩
  rw [hlog]
  simp only [List.length_append, List.length_map, List.length_cons]
  rfl

lemma get_transcript_eq (url lang vid : String) (p : Provider)
    (hx : extract_video_id url = some vid) (hv : vid ≠ "") :
    get_transcript url lang p = renderResult vid lang (resolve p lang) := by
  unfold get_transcript
  rw [hx]
  dsimp only
  rw [if_neg hv]

lemma idChar_ne {c : Char} (h : isIdChar c = true) {d : Char}
    (hd : d ∈ ([':', '/', '?', '#', '@', '&', '=', '[', ']', ';', '%', '+',
      '\t', '\r', '\n'] : List Char)) : c ≠ d := by
  intro he
  subst he
  fin_cases hd <;> exact absurd h (by decide)

lemma breakAt_none {t : Char} : ∀ {l : List Char}, (∀ c ∈ l, c ≠ t) → breakAt t l = none := by
  intro l h
  induction l with
  | nil => rfl
  | cons c rest ih =>
      simp only [breakAt, if_neg (h c (by simp))]
      rw [ih (fun d hd => h d (by simp [hd]))]
      rfl

lemma map_noop {f : Char → Char} : ∀ {l : List Char}, (∀ c ∈ l, f c = c) → l.map f = l := by
  intro l h
  induction l with
  | nil => rfl
  | cons c rest ih => simp [h c (by simp), ih (fun d hd => h d (by simp [hd]))]

lemma pctDecode_id : ∀ {l : List Char}, (∀ c ∈ l, c ≠ '%') → pctDecode l = l := by
  intro l h
  induction l with
  | nil => rfl
  | cons c rest ih =>
      have hc : c ≠ '%' := h c (by simp)
      have hr : pctDecode rest = rest := ih (fun d hd => h d (by simp [hd]))
      cases rest with
      | nil => simp_all [pctDecode]
      | cons a rest2 =>
          cases rest2 with
          | nil => simp_all [pctDecode]
          | cons b rest3 => simp_all [pctDecode]

lemma unq_id {l : List Char} (h : ∀ c ∈ l, isIdChar c = true) : unq l = l := by
  unfold unq
  rw [map_noop (fun c hc => by
    rw [if_neg (idChar_ne (h c hc) (by simp))])]
  exact pctDecode_id (fun c hc => idChar_ne (h c hc) (by simp))

lemma idChar_unsafe_eq_false {c : Char} (h : isIdChar c = true) : isUnsafeUrlChar c = false := by
  have t1 := idChar_ne h (show '\t' ∈ ([':', '/', '?', '#', '@', '&', '=', '[', ']', ';', '%',
    '+', '\t', '\r', '\n'] : List Char) from by simp)
  have t2 := idChar_ne h (show '\r' ∈ ([':', '/', '?', '#', '@', '&', '=', '[', ']', ';', '%',
    '+', '\t', '\r', '\n'] : List Char) from by simp)
  have t3 := idChar_ne h (show '\n' ∈ ([':', '/', '?', '#', '@', '&', '=', '[', ']', ';', '%',
    '+', '\t', '\r', '\n'] : List Char) from by simp)
  simp [isUnsafeUrlChar, t1, t2, t3]

lemma cleanUrl_concat_id {pre : List Char} {s : List Char}
    (hpre1 : List.dropWhile isC0OrSpace (pre ++ s) = pre ++ s)
    (hpre2 : ∀ c ∈ pre, isUnsafeUrlChar c = false)
    (hs : ∀ c ∈ s, isIdChar c = true) :
    cleanUrl (pre ++ s) = pre ++ s := by
  unfold cleanUrl
  rw [hpre1, List.filter_append,
    List.filter_eq_self.mpr (fun c hc => by simp [hpre2 c hc]),
    List.filter_eq_self.mpr (fun c hc => by simp [idChar_unsafe_eq_false (hs c hc)])]

lemma pyUrlparse_youtube (s : List Char) (hs : ∀ c ∈ s, isIdChar c = true) :
    pyUrlparse ("https://youtu.be/".data ++ s) =
      some ⟨"https".data, "youtu.be".data, '/' :: s, []⟩ := by
  have hclean : cleanUrl ("https://youtu.be/".data ++ s) = "https://youtu.be/".data ++ s := by
    refine cleanUrl_concat_id ?_ (by decide) hs
    rw [show "https://youtu.be/".data ++ s = 'h' :: ("ttps://youtu.be/".data ++ s) from by simp]
    rw [List.dropWhile_cons, if_neg (by decide)]
  have hbq : breakAt '?' s = none :=
    breakAt_none (fun c hc => idChar_ne (hs c hc) (by simp))
  have hbh : breakAt '#' s = none :=
    breakAt_none (fun c hc => idChar_ne (hs c hc) (by simp))
  have hnosemi : ¬ (';' ∈ ('/' :: s)) := by
    intro hm
    rcases List.mem_cons.mp hm with he | hm
    · exact absurd he.symm (by decide)
    · exact idChar_ne (hs ';' hm) (by simp) rfl
  unfold pyUrlparse
  rw [hclean]
  simp +decide [splitScheme, splitNetloc, breakAt, bracketMismatch, splitParams,
    usesParams, List.takeWhile_cons, List.dropWhile_cons, hbq, hbh, hnosemi]

lemma pyUrlparse_watch_www (s : List Char) (hs : ∀ c ∈ s, isIdChar c = true) :
    pyUrlparse ("https://www.youtube.com/watch?v=".data ++ s) =
      some ⟨"https".data, "www.youtube.com".data, "/watch".data, 'v' :: '=' :: s⟩ := by
  have hclean : cleanUrl ("https://www.youtube.com/watch?v=".data ++ s) =
      "https://www.youtube.com/watch?v=".data ++ s := by
    refine cleanUrl_concat_id ?_ (by decide) hs
    rw [show "https://www.youtube.com/watch?v=".data ++ s =
      'h' :: ("ttps://www.youtube.com/watch?v=".data ++ s) from by simp]
    rw [List.dropWhile_cons, if_neg (by decide)]
  have hbh : breakAt '#' s = none :=
    breakAt_none (fun c hc => idChar_ne (hs c hc) (by simp))
  unfold pyUrlparse
  rw [hclean]
  simp +decide [splitScheme, splitNetloc, breakAt, bracketMismatch, splitParams,
    usesParams, List.takeWhile_cons, List.dropWhile_cons, hbh]

lemma pyUrlparse_watch_bare (s : List Char) (hs : ∀ c ∈ s, isIdChar c = true) :
    pyUrlparse ("https://youtube.com/watch?v=".data ++ s) =
      some ⟨"https".data, "youtube.com".data, "/watch".data, 'v' :: '=' :: s⟩ := by
  have hclean : cleanUrl ("https://youtube.com/watch?v=".data ++ s) =
      "https://youtube.com/watch?v=".data ++ s := by
    refine cleanUrl_concat_id ?_ (by decide) hs
    rw [show "https://youtube.com/watch?v=".data ++ s =
      'h' :: ("ttps://youtube.com/watch?v=".data ++ s) from by simp]
    rw [List.dropWhile_cons, if_neg (by decide)]
  have hbh : breakAt '#' s = none :=
    breakAt_none (fun c hc => idChar_ne (hs c hc) (by simp))
  unfold pyUrlparse
  rw [hclean]
  simp +decide [splitScheme, splitNetloc, breakAt, bracketMismatch, splitParams,
    usesParams, List.takeWhile_cons, List.dropWhile_cons, hbh]

lemma pySplit_single {sep : Char} : ∀ {l : List Char}, (∀ c ∈ l, c ≠ sep) →
    pySplit sep l = [l] := by
  intro l h
  induction l with
  | nil => rfl
  | cons c rest ih =>
      simp only [pySplit, if_neg (h c (by simp))]
      rw [ih (fun d hd => h d (by simp [hd]))]

lemma firstV_vs (s : List Char) (hs : ∀ c ∈ s, isIdChar c = true) (hne : s ≠ []) :
    firstV ('v' :: '=' :: s) = some s := by
  have hsp : pySplit '&' ('v' :: '=' :: s) = ['v' :: '=' :: s] := by
    refine pySplit_single ?_
    intro c hc
    rcases List.mem_cons.mp hc with rfl | hc
    · decide
    rcases List.mem_cons.mp hc with rfl | hc
    · decide
    · exact idChar_ne (hs c hc) (by simp)
  have hb : breakAt '=' ('v' :: '=' :: s) = some (['v'], s) := by
    simp +decide [breakAt]
  unfold firstV parse_qsl
  rw [hsp]
  simp +decide [hb, hne, unq_id hs]


/-! ### The claims -/


/-- C1, counterexample: with provider `pEmptyFetch` and preferred language
`en`, the run is Exhausted (the `es` sweep fetch returned zero segments,
which the falsy check of line 137 treats as failure), yet the attempt log
has 3 entries — not the 13 entries (one sweep entry per remaining common
language) that C1 requires — and contains a success-tagged entry. -/
theorem claim_C1_counterexample :
    resolve pEmptyFetch "en" = .exhausted
      ["en (failed: No transcripts were found for any of the requested language codes: en)",
       "auto-detect (failed: boom)", "es (success)"] ∧
    (resolve pEmptyFetch "en").logOf.length = 3 ∧
    "es (success)" ∈ (resolve pEmptyFetch "en").logOf := by
  refine ⟨rfl, rfl, by decide⟩

/-- C1, amended: every Exhausted log is non-empty and starts with the
Strategy 1 entry then the `auto-detect` entry; the remaining entries follow
the fixed common-language order skipping the preferred language, either one
failure entry per code (when every sweep attempt fails), or the failure
entries up to the first sweep language whose fetch succeeded followed by
that language's success entry (the empty-fetch case, still treated as
exhausted).  When the provider has no transcripts at all and the preferred
language is `en`, the Exhausted log has exactly 13 attempts. -/
theorem claim_C1_amended :
    (∀ (p : Provider) (lang : String) (log : List String),
        resolve p lang = .exhausted log →
        log ≠ [] ∧
        ∃ e1 e2 rest,
          log = (lang ++ " (failed: " ++ e1 ++ ")") ::
            ("auto-detect (failed: " ++ e2 ++ ")") :: rest ∧
          (rest = (common_languages.filter (fun l => l ≠ lang)).map (fun l => l ++ " (failed)") ∨
           ∃ s1 l' s2, common_languages.filter (fun x => x ≠ lang) = s1 ++ l' :: s2 ∧
             rest = s1.map (fun x => x ++ " (failed)") ++ [l' ++ " (success)"])) ∧
    (∀ p : Provider, ((∃ e, p.listing = .error e) ∨ p.listing = .ok []) →
        ∃ log, resolve p "en" = .exhausted log ∧ log.length = 13) := by
  constructor
  · intro p lang log h
    obtain ⟨e1, e2, rest, hlog, hrest⟩ := resolve_exhausted_shape p lang log h
    exact ⟨by simp [hlog], e1, e2, rest, hlog, hrest⟩
  · exact resolve_noTranscripts

/-- Witness for C1 at the concrete no-transcripts provider. -/
theorem claim_C1_witness :
    ((∃ e, pNoListing.listing = .error e) ∨ pNoListing.listing = .ok []) ∧
    (∃ log, resolve pNoListing "en" = .exhausted log ∧ log.length = 13) :=
  ⟨Or.inr rfl, claim_C1_amended.2 pNoListing (Or.inr rfl)⟩

/-- C2: in Strategy 2 the engine selects the first manually-created
transcript if any exist, else the first transcript in listing order (the
code's `chooseBest` equals the spec's selection rule); when the listing is
non-empty and the chosen transcript's fetch succeeds, the engine terminates
resolved with that transcript's own language code and the corresponding
success entry; an empty listing is recorded as an `auto-detect` failure
after which Strategy 3 runs. -/
theorem claim_C2 :
    (∀ ts : List Transcript, chooseBest ts = specSelectBest ts) ∧
    (∀ (p : Provider) (lang e1 : String) (ts : List Transcript) (t : Transcript)
        (segs : List Segment),
        tryLang p lang = .error e1 → p.listing = .ok ts → ts ≠ [] →
        chooseBest ts = some t → t.fetchResult = .ok segs →
        resolve p lang = .resolved segs t.language_code
          [lang ++ " (failed: " ++ e1 ++ ")", t.language_code ++ " (success)"]) ∧
    (∀ (p : Provider) (lang e1 : String),
        tryLang p lang = .error e1 → p.listing = .ok [] →
        resolve p lang = strategy3 p lang
          [lang ++ " (failed: " ++ e1 ++ ")",
           "auto-detect (failed: No transcripts available)"]) := by
  refine ⟨chooseBest_eq_spec, ?_, ?_⟩
  · intro p lang e1 ts t segs h1 hts _ hcb hf
    have hm2 : method2 p = .ok (segs, t.language_code) := by
      simp [method2, hts, hcb, hf]
    unfold resolve
    rw [h1]
    dsimp only
    rw [hm2]
    rfl
  · intro p lang e1 h1 hts
    have hm2 : method2 p = .error "No transcripts available" := by
      simp [method2, hts, chooseBest]
    unfold resolve
    rw [h1]
    dsimp only
    rw [hm2]
    rfl

/-- Witness for C2 at the concrete two-track provider. -/
theorem claim_C2_witness :
    tryLang pTwoTracks "en" =
      .error "No transcripts were found for any of the requested language codes: en" ∧
    pTwoTracks.listing = .ok [⟨"de", true, .ok [⟨"hallo", 0, 1⟩]⟩,
      ⟨"fr", false, .ok [⟨"bonjour", 0, 1⟩]⟩] ∧
    chooseBest [⟨"de", true, .ok [⟨"hallo", 0, 1⟩]⟩, ⟨"fr", false, .ok [⟨"bonjour", 0, 1⟩]⟩] =
      some ⟨"fr", false, .ok [⟨"bonjour", 0, 1⟩]⟩ ∧
    resolve pTwoTracks "en" = .resolved [⟨"bonjour", 0, 1⟩] "fr"
      ["en (failed: No transcripts were found for any of the requested language codes: en)",
       "fr (success)"] :=
  ⟨rfl, rfl, rfl,
    claim_C2.2.1 pTwoTracks "en" _ _ _ _ rfl rfl (by decide) rfl rfl⟩

/-- C3, counterexample: with provider `pMarkerFail` all three strategies
fail and the endpoint does answer 404, but the response body carries no
`attemptedMethods` list at all, contradicting "the response body carries
the full ordered attempt trail". -/
theorem claim_C3_counterexample :
    (resolve pMarkerFail "en").isExhausted = true ∧
    (get_transcript "https://youtu.be/dQw4w9WgXcQ" "en" pMarkerFail).status = 404 ∧
    (get_transcript "https://youtu.be/dQw4w9WgXcQ" "en" pMarkerFail).attempted = none :=
  ⟨rfl, rfl, rfl⟩

/-- C3, amended: whenever all three strategies fail, the endpoint answers
404 exactly when the accumulated failure message contains a known provider
marker ("Could not retrieve a transcript" or "TranscriptsDisabled") and 500
otherwise; the body never carries an `attemptedMethods` list — in the 500
case the joined attempt trail appears only inside the `details` string. -/
theorem claim_C3_amended :
    ∀ (url lang vid : String) (p : Provider) (log : List String),
      extract_video_id url = some vid → vid ≠ "" →
      resolve p lang = .exhausted log →
      (get_transcript url lang p).status =
        (if containsSubstr ("All methods failed. Attempted: " ++ String.intercalate ", " log)
              "Could not retrieve a transcript" ||
            containsSubstr ("All methods failed. Attempted: " ++ String.intercalate ", " log)
              "TranscriptsDisabled"
          then 404 else 500) ∧
      (get_transcript url lang p).attempted = none ∧
      ((get_transcript url lang p).status = 500 →
        (get_transcript url lang p).details =
          "All methods failed. Attempted: " ++ String.intercalate ", " log) := by
  intro url lang vid p log hx hv hr
  rw [get_transcript_eq url lang vid p hx hv, hr]
  unfold renderResult
  dsimp only
  by_cases h1 : containsSubstr ("All methods failed. Attempted: " ++ String.intercalate ", " log)
      "Could not retrieve a transcript" = true
  · simp [h1, Response.status, Response.attempted, Response.details]
  · by_cases h2 : containsSubstr ("All methods failed. Attempted: " ++ String.intercalate ", " log)
        "TranscriptsDisabled" = true
    · simp [h1, h2, Response.status, Response.attempted, Response.details]
    · simp [h1, h2, Response.status, Response.attempted, Response.details]

/-- Witness for C3 at the concrete empty-fetch provider. -/
theorem claim_C3_witness :
    extract_video_id "https://youtu.be/dQw4w9WgXcQ" = some "dQw4w9WgXcQ" ∧
    resolve pEmptyFetch "en" = .exhausted
      ["en (failed: No transcripts were found for any of the requested language codes: en)",
       "auto-detect (failed: boom)", "es (success)"] ∧
    (get_transcript "https://youtu.be/dQw4w9WgXcQ" "en" pEmptyFetch).status =
      (if containsSubstr ("All methods failed. Attempted: " ++ String.intercalate ", "
            ["en (failed: No transcripts were found for any of the requested language codes: en)",
             "auto-detect (failed: boom)", "es (success)"])
            "Could not retrieve a transcript" ||
          containsSubstr ("All methods failed. Attempted: " ++ String.intercalate ", "
            ["en (failed: No transcripts were found for any of the requested language codes: en)",
             "auto-detect (failed: boom)", "es (success)"])
            "TranscriptsDisabled"
        then 404 else 500) :=
  ⟨rfl, rfl,
    (claim_C3_amended "https://youtu.be/dQw4w9WgXcQ" "en" "dQw4w9WgXcQ" pEmptyFetch _
      rfl (by decide) rfl).1⟩

/-- C4: evaluation of the code at the failing input.  For the bare
11-character identifier "abcdefghijk", `urlparse` leaves the hostname
`None`, so `'youtube.com' in parsed.hostname` raises `TypeError`, the
blanket `except` catches it, and the resolver returns `None` (a 400) —
the bare-identifier branch of line 48 never runs, contradicting the claim
and the code's own "Handle direct video ID" comment. -/
theorem claim_C4_eval : extract_video_id "abcdefghijk" = none := rfl

/-- C5, counterexample: with provider `pEmptyFetch`, Strategy 3 selects the
`es` transcript whose fetch succeeds with zero segments, but the endpoint
answers 500 (via the all-methods-failed path), not the claimed 404. -/
theorem claim_C5_counterexample :
    tryLang pEmptyFetch "es" = .ok [] ∧
    "es (success)" ∈ (resolve pEmptyFetch "en").logOf ∧
    (get_transcript "https://youtu.be/dQw4w9WgXcQ" "en" pEmptyFetch).status = 500 :=
  ⟨rfl, by decide, rfl⟩

/-- C5, amended: whenever the resolution block reaches its rendering stage
with an empty segment list (which happens when the transcript selected in
Strategy 1 or Strategy 2 fetches an empty sequence), the endpoint answers
404 with the "no segments" detail and the attempt log; an empty fetch in
the Strategy 3 sweep instead takes the all-methods-failed error path. -/
theorem claim_C5_amended :
    ∀ (url lang vid l : String) (p : Provider) (log : List String),
      extract_video_id url = some vid → vid ≠ "" →
      resolve p lang = .resolved [] l log →
      get_transcript url lang p =
        .err 404 "No transcript found for this video" "No transcript segments available"
          vid (some log) none := by
  intro url lang vid l p log hx hv hr
  rw [get_transcript_eq url lang vid p hx hv, hr]
  rfl

/-- Witness for C5 at the concrete empty-first-fetch provider. -/
theorem claim_C5_witness :
    extract_video_id "https://youtu.be/dQw4w9WgXcQ" = some "dQw4w9WgXcQ" ∧
    resolve pEmptyFirst "en" = .resolved [] "en" ["en (success)"] ∧
    get_transcript "https://youtu.be/dQw4w9WgXcQ" "en" pEmptyFirst =
      .err 404 "No transcript found for this video" "No transcript segments available"
        "dQw4w9WgXcQ" (some ["en (success)"]) none :=
  ⟨rfl, rfl,
    claim_C5_amended "https://youtu.be/dQw4w9WgXcQ" "en" "dQw4w9WgXcQ" "en" pEmptyFirst
      ["en (success)"] rfl (by decide) rfl⟩

/-- C6, counterexample: the youtu.be branch performs no validation — the
input "https://youtu.be/ab" yields the 2-character value "ab", which does
not match the 11-character identifier pattern. -/
theorem claim_C6_counterexample :
    extract_video_id "https://youtu.be/ab" = some "ab" ∧ matchesVideoId "ab" = false :=
  ⟨rfl, rfl⟩

/-- C6, amended: every non-None value returned by the reference resolver is
taken verbatim from the input without pattern validation — the youtu.be
path minus its leading character, the first `v` query parameter of a
youtube.com URL, or the input itself when it matches the pattern; only the
last branch guarantees the 11-character pattern. -/
theorem claim_C6_amended :
    ∀ (url v : String), extract_video_id url = some v →
      ∃ parts, pyUrlparse url.data = some parts ∧
        ((hostnameOf parts.netloc = some ("youtu.be".data) ∧
            v = String.mk (parts.path.drop 1)) ∨
         (∃ h, hostnameOf parts.netloc = some h ∧
            containsSubstr (String.mk h) "youtube.com" = true ∧
            firstV parts.query = some v.data) ∨
         (matchesVideoId url = true ∧ v = url)) := by
  intro url v h
  unfold extract_video_id at h
  cases hp : pyUrlparse url.data with
  | none => rw [hp] at h; simp at h
  | some parts =>
      rw [hp] at h
      dsimp only at h
      refine ⟨parts, rfl, ?_⟩
      by_cases h1 : hostnameOf parts.netloc = some ("youtu.be".data)
      · rw [if_pos h1] at h
        refine Or.inl ⟨h1, ?_⟩
        injection h with h'
        exact h'.symm
      · rw [if_neg h1] at h
        cases hh : hostnameOf parts.netloc with
        | none => rw [hh] at h; simp at h
        | some hst =>
            rw [hh] at h
            dsimp only at h
            by_cases h2 : containsSubstr (String.mk hst) "youtube.com" = true
            · rw [if_pos h2] at h
              cases hv : firstV parts.query with
              | none => rw [hv] at h; simp at h
              | some vl =>
                  rw [hv] at h
                  dsimp only at h
                  injection h with h'
                  refine Or.inr (Or.inl ⟨hst, rfl, h2, ?_⟩)
                  rw [← h']
            · rw [if_neg h2] at h
              by_cases h3 : matchesVideoId url = true
              · rw [if_pos h3] at h
                injection h with h'
                exact Or.inr (Or.inr ⟨h3, h'.symm⟩)
              · rw [if_neg h3] at h
                simp at h

/-- Witness for C6 at the concrete short youtu.be URL. -/
theorem claim_C6_witness :
    extract_video_id "https://youtu.be/ab" = some "ab" ∧
    (∃ parts, pyUrlparse ("https://youtu.be/ab" : String).data = some parts ∧
      ((hostnameOf parts.netloc = some ("youtu.be".data) ∧
          ("ab" : String) = String.mk (parts.path.drop 1)) ∨
       (∃ h, hostnameOf parts.netloc = some h ∧
          containsSubstr (String.mk h) "youtube.com" = true ∧
          firstV parts.query = some ("ab" : String).data) ∨
       (matchesVideoId "https://youtu.be/ab" = true ∧
          ("ab" : String) = "https://youtu.be/ab"))) :=
  ⟨rfl, claim_C6_amended "https://youtu.be/ab" "ab" rfl⟩

/-- C7: for every 11-character identifier over `[A-Za-z0-9_-]`, the
resolver returns exactly that identifier for `https://youtu.be/<id>`,
`https://youtube.com/watch?v=<id>` and
`https://www.youtube.com/watch?v=<id>`. -/
theorem claim_C7 :
    ∀ id : String, id.data.length = 11 → (∀ c ∈ id.data, isIdChar c = true) →
      extract_video_id ("https://youtu.be/" ++ id) = some id ∧
      extract_video_id ("https://youtube.com/watch?v=" ++ id) = some id ∧
      extract_video_id ("https://www.youtube.com/watch?v=" ++ id) = some id := by
  intro id hlen hchars
  have hne : id.data ≠ [] := by
    intro h
    rw [h] at hlen
    simp at hlen
  refine ⟨?_, ?_, ?_⟩
  · unfold extract_video_id
    rw [String.data_append, pyUrlparse_youtube id.data hchars]
    dsimp only
    rw [if_pos (by decide)]
    rfl
  · unfold extract_video_id
    rw [String.data_append, pyUrlparse_watch_bare id.data hchars]
    dsimp only
    rw [if_neg (by decide)]
    rw [show hostnameOf ("youtube.com".data) = some ("youtube.com".data) from rfl]
    dsimp only
    rw [if_pos (by decide), firstV_vs id.data hchars hne]
  · unfold extract_video_id
    rw [String.data_append, pyUrlparse_watch_www id.data hchars]
    dsimp only
    rw [if_neg (by decide)]
    rw [show hostnameOf ("www.youtube.com".data) = some ("www.youtube.com".data) from rfl]
    dsimp only
    rw [if_pos (by decide), firstV_vs id.data hchars hne]

/-- Witness for C7 at the identifier from spec Scenario A. -/
theorem claim_C7_witness :
    ("dQw4w9WgXcQ" : String).data.length = 11 ∧
    extract_video_id ("https://youtu.be/" ++ "dQw4w9WgXcQ") = some "dQw4w9WgXcQ" ∧
    extract_video_id ("https://youtube.com/watch?v=" ++ "dQw4w9WgXcQ") = some "dQw4w9WgXcQ" ∧
    extract_video_id ("https://www.youtube.com/watch?v=" ++ "dQw4w9WgXcQ") = some "dQw4w9WgXcQ" := by
  have h := claim_C7 "dQw4w9WgXcQ" (by decide) (by decide)
  exact ⟨by decide, h.1, h.2.1, h.2.2⟩

/-- C8, counterexample: with no transcripts available, the Strategy 3 sweep
records the `es` failure as the bare entry "es (failed)" — it contains no
colon, so it is not of the claimed form "<language> (failed: <reason>)"
even though the underlying failure carried a reason string. -/
theorem claim_C8_counterexample :
    (resolve pNoListing "en").isExhausted = true ∧
    tryLang pNoListing "es" =
      .error "No transcripts were found for any of the requested language codes: es" ∧
    (resolve pNoListing "en").logOf.get? 2 = some "es (failed)" ∧
    ¬ (':' ∈ "es (failed)".data) :=
  ⟨rfl, rfl, rfl, by decide⟩

/-- C8, amended: in every Exhausted log the Strategy 1 and Strategy 2
failure entries carry the failure reason text ("<lang> (failed: <reason>)"
and "auto-detect (failed: <reason>)"), while every remaining sweep entry is
a bare "<language> (failed)" or "<language> (success)" without reason. -/
theorem claim_C8_amended :
    ∀ (p : Provider) (lang : String) (log : List String),
      resolve p lang = .exhausted log →
      ∃ e1 e2 rest,
        log = (lang ++ " (failed: " ++ e1 ++ ")") ::
          ("auto-detect (failed: " ++ e2 ++ ")") :: rest ∧
        ∀ entry ∈ rest,
          (∃ l', entry = l' ++ " (failed)") ∨ ∃ l', entry = l' ++ " (success)" := by
  intro p lang log h
  obtain ⟨e1, e2, rest, hlog, hrest⟩ := resolve_exhausted_shape p lang log h
  refine ⟨e1, e2, rest, hlog, ?_⟩
  intro entry he
  rcases hrest with hrest | ⟨s1, l', s2, _, hrest⟩
  · subst hrest
    obtain ⟨x, _, rfl⟩ := List.mem_map.mp he
    exact Or.inl ⟨x, rfl⟩
  · subst hrest
    rcases List.mem_append.mp he with hm | hm
    · obtain ⟨x, _, rfl⟩ := List.mem_map.mp hm
      exact Or.inl ⟨x, rfl⟩
    · simp only [List.mem_singleton] at hm
      exact Or.inr ⟨l', hm⟩

/-- Witness for C8 at the concrete empty-fetch provider. -/
theorem claim_C8_witness :
    resolve pEmptyFetch "en" = .exhausted
      ["en (failed: No transcripts were found for any of the requested language codes: en)",
       "auto-detect (failed: boom)", "es (success)"] ∧
    (∃ e1 e2 rest,
      ["en (failed: No transcripts were found for any of the requested language codes: en)",
       "auto-detect (failed: boom)", "es (success)"] =
        ("en" ++ " (failed: " ++ e1 ++ ")") ::
          ("auto-detect (failed: " ++ e2 ++ ")") :: rest ∧
      ∀ entry ∈ rest,
        (∃ l', entry = l' ++ " (failed)") ∨ ∃ l', entry = l' ++ " (success)") :=
  ⟨rfl, claim_C8_amended pEmptyFetch "en" _ rfl⟩

/-- C9: the engine is deterministic — identical provider state and
identical inputs yield identical results (hence identical `languageUsed`
and segments) — and the tie-break is fixed: manual-over-generated,
first-in-listing-order otherwise (the code's selection equals the spec's
rule). -/
theorem claim_C9 :
    (∀ (p₁ p₂ : Provider) (l₁ l₂ : String), p₁ = p₂ → l₁ = l₂ →
        resolve p₁ l₁ = resolve p₂ l₂) ∧
    (∀ ts : List Transcript, chooseBest ts = specSelectBest ts) :=
  ⟨fun _ _ _ _ hp hl => by rw [hp, hl], chooseBest_eq_spec⟩

/-- Witness for C9 at the concrete two-track provider. -/
theorem claim_C9_witness :
    resolve pTwoTracks "en" = resolve pTwoTracks "en" :=
  claim_C9.1 pTwoTracks pTwoTracks "en" "en" rfl rfl

/-- C10: when the selected transcript's fetch succeeds but returns zero
segments, the rendered 404 response's `attemptedMethods` list contains that
language's success-tagged entry — a success entry does not imply a 200. -/
theorem claim_C10 :
    ∀ (url lang vid l : String) (p : Provider) (log : List String),
      extract_video_id url = some vid → vid ≠ "" →
      resolve p lang = .resolved [] l log →
      (get_transcript url lang p).status = 404 ∧
      (get_transcript url lang p).attempted = some log ∧
      (l ++ " (success)") ∈ log := by
  intro url lang vid l p log hx hv hr
  rw [get_transcript_eq url lang vid p hx hv, hr]
  refine ⟨rfl, rfl, ?_⟩
  have hlast := resolve_resolved_last p lang [] l log hr
  exact List.mem_of_mem_getLast? (by simp [hlast])

/-- Witness for C10 at the concrete empty-first-fetch provider. -/
theorem claim_C10_witness :
    extract_video_id "https://youtu.be/dQw4w9WgXcQ" = some "dQw4w9WgXcQ" ∧
    resolve pEmptyFirst "en" = .resolved [] "en" ["en (success)"] ∧
    (get_transcript "https://youtu.be/dQw4w9WgXcQ" "en" pEmptyFirst).status = 404 ∧
    (get_transcript "https://youtu.be/dQw4w9WgXcQ" "en" pEmptyFirst).attempted =
      some ["en (success)"] ∧
    ("en" ++ " (success)") ∈ ["en (success)"] :=
  ⟨rfl, rfl,
    claim_C10 "https://youtu.be/dQw4w9WgXcQ" "en" "dQw4w9WgXcQ" "en" pEmptyFirst
      ["en (success)"] rfl (by decide) rfl⟩

end TranscriptService
